import Mathlib

/-!
Shallow embedding of the python backend (routers/deployments.py,
routers/projects.py, routers/analytics.py, routers/auth.py,
middleware/rate_limiter.py, utils/security.py, models.py).

The relational store is modelled as lists of rows; SQLAlchemy queries
(`filter ... first()`) become `List.find?`, row updates become a map over
the list keyed by primary key, timestamps (`datetime.utcnow()`) are
naturals passed explicitly, and `random.random() > 0.2` in the simulator
is an explicit boolean parameter.  HTTP errors (`HTTPException`) are an
`Except` with the numeric status code and detail string.
-/

namespace Backend

/-- The six deployment states of `models.DeploymentStatus`. -/
inductive DeploymentStatus where
  | pending
  | building
  | deploying
  | success
  | failed
  | cancelled
deriving DecidableEq, Repr

/-- String value of each enum member (`models.DeploymentStatus` is a str enum). -/
def DeploymentStatus.value : DeploymentStatus → String
  | .pending => "pending"
  | .building => "building"
  | .deploying => "deploying"
  | .success => "success"
  | .failed => "failed"
  | .cancelled => "cancelled"

/-- Terminal states, the set `[SUCCESS, FAILED, CANCELLED]` tested by
`cancel_deployment` in routers/deployments.py. -/
def DeploymentStatus.isTerminal : DeploymentStatus → Bool
  | .success => true
  | .failed => true
  | .cancelled => true
  | _ => false

/-- Row of the `users` table (models.User), the fields the routers read. -/
structure UserRec where
  id : Nat
  email : String
  isActive : Bool
  isAdmin : Bool
  createdAt : Nat
deriving DecidableEq, Repr

/-- Row of the `projects` table (models.Project). -/
structure ProjectRec where
  id : Nat
  name : String
  githubUrl : String
  userId : Nat
  createdAt : Nat
deriving DecidableEq, Repr

/-- Row of the `deployments` table (models.Deployment). -/
structure DeploymentRec where
  id : Nat
  projectId : Nat
  status : DeploymentStatus
  logs : String
  startedAt : Nat
  completedAt : Option Nat
deriving DecidableEq, Repr

/-- Row of the `refresh_tokens` table (models.RefreshToken). -/
structure RefreshTokenRec where
  id : Nat
  token : String
  userId : Nat
  expiresAt : Nat
deriving DecidableEq, Repr

/-- The relational store: one list of rows per table. -/
structure DB where
  users : List UserRec
  projects : List ProjectRec
  deployments : List DeploymentRec
  refreshTokens : List RefreshTokenRec
deriving DecidableEq, Repr

/-- An HTTPException: status code and detail string. -/
abbrev Err := Nat × String

deriving instance DecidableEq for Except

/-- Query `Project.id == project_id, Project.user_id == user_id ... first()`,
the ownership-scoped lookup shared by routers/projects.py and
`trigger_deployment`. -/
def findProjectOwned (db : DB) (pid uid : Nat) : Option ProjectRec :=
  db.projects.find? (fun p => p.id == pid && p.userId == uid)

/-- Query `Deployment ... join(Project) ... Deployment.id == deployment_id,
Project.user_id == user_id ... first()` of routers/deployments.py: the first
deployment row with the given id whose joined project row is owned by `uid`. -/
def findDeploymentOwned (db : DB) (did uid : Nat) : Option DeploymentRec :=
  db.deployments.find? (fun d =>
    d.id == did && db.projects.any (fun p => p.id == d.projectId && p.userId == uid))

/-- Commit of a mutation of the deployment row with primary key `did`. -/
def updateDeployment (db : DB) (did : Nat) (f : DeploymentRec → DeploymentRec) : DB :=
  { db with deployments := db.deployments.map (fun d => if d.id == did then f d else d) }

/-- Handler `trigger_deployment` (POST /deployments/projects/{id}/deploy):
404 unless the project exists and is owned by the caller, otherwise inserts a
new PENDING deployment whose log is the single queued line.  `newId` is the
primary key the store assigns, `now` the server-default start time. -/
def trigger_deployment (now newId : Nat) (db : DB) (uid pid : Nat) :
    DB × Except Err DeploymentRec :=
  match findProjectOwned db pid uid with
  | none => (db, .error (404, "Project not found"))
  | some _ =>
      let d : DeploymentRec :=
        { id := newId, projectId := pid, status := .pending,
          logs := "Deployment queued...\n", startedAt := now, completedAt := none }
      ({ db with deployments := db.deployments ++ [d] }, .ok d)

/-- First stage of `simulate_deployment`, everything committed between the
first and second `asyncio.sleep`: fetch the row (return unchanged when it is
gone), then set status BUILDING and assign — not append — the log
(`deployment.logs = "Starting build process...\n"`).  The current status is
not consulted before writing. -/
def simStep1 (db : DB) (did : Nat) : DB :=
  match db.deployments.find? (fun d => d.id == did) with
  | none => db
  | some _ =>
      updateDeployment db did (fun d =>
        { d with status := .building, logs := "Starting build process...\n" })

/-- Second stage of `simulate_deployment`, the two commits between the second
and third `asyncio.sleep` (no await separates them, so no other task can
interleave): append the dependency/build lines, set status DEPLOYING, append
the deploy-start lines.  Again the current status is not consulted. -/
def simStep2 (db : DB) (did : Nat) : DB :=
  updateDeployment db did (fun d =>
    { d with status := .deploying,
             logs := d.logs ++ "✓ Dependencies installed\n"
                     ++ "✓ Building application...\n"
                     ++ "✓ Build completed successfully\n"
                     ++ "Starting deployment...\n" })

/-- Final stage of `simulate_deployment` after the last sleep: the random
draw `random.random() > 0.2` is the parameter `ok`; sets SUCCESS or FAILED,
appends the outcome line and stamps `completed_at`, regardless of the
current status. -/
def simStep3 (ok : Bool) (now : Nat) (db : DB) (did : Nat) : DB :=
  updateDeployment db did (fun d =>
    if ok then
      { d with status := .success,
               logs := d.logs ++ "✓ Deployment completed successfully!\n",
               completedAt := some now }
    else
      { d with status := .failed,
               logs := d.logs ++ "✗ Deployment failed: Build timeout\n",
               completedAt := some now })

/-- Handler `get_deployment` (GET /deployments/{id}): ownership-scoped fetch,
404 when absent or not owned. -/
def get_deployment (db : DB) (uid did : Nat) : Except Err DeploymentRec :=
  match findDeploymentOwned db did uid with
  | none => .error (404, "Deployment not found")
  | some d => .ok d

/-- Handler `get_deployment_logs` (GET /deployments/{id}/logs): returns the
accumulated log text, 404 when absent or not owned. -/
def get_deployment_logs (db : DB) (uid did : Nat) : Except Err String :=
  match findDeploymentOwned db did uid with
  | none => .error (404, "Deployment not found")
  | some d => .ok d.logs

/-- The line `cancel_deployment` appends to the log. -/
def cancelLogLine : String := "\n✗ Deployment cancelled by user\n"

/-- Handler `cancel_deployment` (POST /deployments/{id}/cancel): 404 when the
deployment is absent or not owned; 400 (`Cannot cancel deployment with
status: ...`) when the status is already terminal, leaving the store
untouched; otherwise sets CANCELLED, stamps `completed_at := now` and appends
the cancellation line. -/
def cancel_deployment (now : Nat) (db : DB) (uid did : Nat) :
    DB × Except Err String :=
  match findDeploymentOwned db did uid with
  | none => (db, .error (404, "Deployment not found"))
  | some d =>
      if d.status.isTerminal then
        (db, .error (400, "Cannot cancel deployment with status: " ++ d.status.value))
      else
        (updateDeployment db d.id (fun x =>
            { x with status := .cancelled, completedAt := some now,
                     logs := x.logs ++ cancelLogLine }),
         .ok "Deployment cancelled successfully")

/-- Handler `get_project` (GET /projects/{id}). -/
def get_project (db : DB) (uid pid : Nat) : Except Err ProjectRec :=
  match findProjectOwned db pid uid with
  | none => .error (404, "Project not found")
  | some p => .ok p

/-- Handler `update_project` (PUT /projects/{id}): 404 when absent or not
owned (store untouched), otherwise overwrite name and github_url. -/
def update_project (db : DB) (uid pid : Nat) (name url : String) :
    DB × Except Err ProjectRec :=
  match findProjectOwned db pid uid with
  | none => (db, .error (404, "Project not found"))
  | some p =>
      let p' := { p with name := name, githubUrl := url }
      ({ db with projects := db.projects.map (fun q => if q.id == pid then p' else q) },
       .ok p')

/-- Handler `delete_project` (DELETE /projects/{id}): 404 when absent or not
owned (store untouched), otherwise delete the row. -/
def delete_project (db : DB) (uid pid : Nat) : DB × Except Err Unit :=
  match findProjectOwned db pid uid with
  | none => (db, .error (404, "Project not found"))
  | some _ =>
      ({ db with projects := db.projects.filter (fun p => p.id != pid) }, .ok ())

/-! ### Analytics (routers/analytics.py) -/

/-- SQL `between`, inclusive on both ends, applied to `started_at`. -/
def inRange (s e : Nat) (d : DeploymentRec) : Bool :=
  s ≤ d.startedAt && d.startedAt ≤ e

/-- Deployments of the caller's projects whose `started_at` lies in the range
(`query(Deployment).join(Project).filter(user_id == ..., between ...)`). -/
def userDeploymentsInRange (db : DB) (uid s e : Nat) : List DeploymentRec :=
  db.deployments.filter (fun d =>
    db.projects.any (fun p => p.id == d.projectId && p.userId == uid) && inRange s e d)

/-- Deployments of one project whose `started_at` lies in the range. -/
def projectDeploymentsInRange (db : DB) (pid s e : Nat) : List DeploymentRec :=
  db.deployments.filter (fun d => d.projectId == pid && inRange s e d)

/-- Shared tail of both analytics endpoints: `status_counts.get('success', 0)`
over the selected deployments, then
`(successful / total * 100) if total > 0 else 0`. -/
def successRate (ds : List DeploymentRec) : ℚ :=
  let total := ds.length
  let successful := (ds.filter (fun d => d.status == .success)).length
  if total > 0 then (successful : ℚ) / (total : ℚ) * 100 else 0

/-- Date-range validation of `Validator.validate_date_range`, on timestamps in
seconds: start must not exceed end and the span is at most 365 days. -/
def validate_date_range (s e : Nat) : Bool :=
  s ≤ e && (e - s) / 86400 ≤ 365

/-- Success-rate component of handler `get_user_analytics`
(GET /analytics/user/stats): 400 on an invalid range, else the rate over the
caller's deployments in range. -/
def get_user_analytics_success_rate (db : DB) (uid s e : Nat) : Except Err ℚ :=
  if validate_date_range s e then
    .ok (successRate (userDeploymentsInRange db uid s e))
  else
    .error (400, "Invalid date range")

/-- Success-rate component of handler `get_project_analytics`
(GET /analytics/project/{id}): 404 unless the project is owned by the caller,
400 on an invalid range, else the rate over the project's deployments in
range. -/
def get_project_analytics_success_rate (db : DB) (uid pid s e : Nat) :
    Except Err ℚ :=
  match findProjectOwned db pid uid with
  | none => .error (404, "Project not found")
  | some _ =>
      if validate_date_range s e then
        .ok (successRate (projectDeploymentsInRange db pid s e))
      else
        .error (400, "Invalid date range")

/-- Count of users with `created_at >= current_month_start`. -/
def newUsersThisMonth (db : DB) (curStart : Nat) : Nat :=
  (db.users.filter (fun u => curStart ≤ u.createdAt)).length

/-- Count of users with `last_month_start <= created_at < current_month_start`. -/
def newUsersLastMonth (db : DB) (lastStart curStart : Nat) : Nat :=
  (db.users.filter (fun u => lastStart ≤ u.createdAt && u.createdAt < curStart)).length

/-- The `user_growth` expression of handler `get_admin_overview`:
`((this - last) / last * 100) if last > 0 else 100`. -/
def user_growth (thisMonth lastMonth : Nat) : ℚ :=
  if lastMonth > 0 then
    ((thisMonth : ℚ) - (lastMonth : ℚ)) / (lastMonth : ℚ) * 100
  else 100

/-- Month-over-month growth percentage reported by `get_admin_overview`
(GET /analytics/admin/overview). -/
def adminUserGrowth (db : DB) (lastStart curStart : Nat) : ℚ :=
  user_growth (newUsersThisMonth db curStart) (newUsersLastMonth db lastStart curStart)

/-! ### Credential service (utils/security.py)

`hashlib.sha256` and the `bcrypt` library are external; they enter the
embedding as parameters.  `sha256hex` stands for
`sha256(password.encode()).hexdigest()`, `hashpw x s` for
`bcrypt.hashpw(x, s)` and `checkpw x h` for `bcrypt.checkpw(x, h)`. -/

structure CryptoPrims where
  sha256hex : String → String
  hashpw : String → String → String
  checkpw : String → String → Bool

/-- The pre-hash `_pre_hash`: SHA-256 hexdigest of the password. -/
def CryptoPrims.preHash (c : CryptoPrims) (password : String) : String :=
  c.sha256hex password

/-- Function `get_password_hash`: rejects passwords longer than 128
characters with a ValueError, otherwise bcrypt-hashes the pre-hash under the
fresh salt `salt` (the `bcrypt.gensalt()` draw, passed explicitly). -/
def get_password_hash (c : CryptoPrims) (salt password : String) :
    Except String String :=
  if password.length > 128 then
    .error "Password must be shorter than 128 characters"
  else
    .ok (c.hashpw (c.preHash password) salt)

/-- Function `verify_password`: bcrypt-checks the pre-hash of the candidate
against the stored digest.  (The `try/except → False` wrapper of the source
is invisible here because the model's primitives are total.) -/
def verify_password (c : CryptoPrims) (plain hashed : String) : Bool :=
  c.checkpw (c.preHash plain) hashed

/-! ### Rate limiter (middleware/rate_limiter.py)

`time.time()` values are rationals.  `requests` is the per-client timestamp
list `self.requests[client_ip]`; the dictionary is keyed by client, and the
middleware touches only the caller's own list, so one list suffices. -/

/-- Drop timestamps at least 60 seconds old (`now - req_time < 60` kept). -/
def cleanRequests (now : ℚ) (reqs : List ℚ) : List ℚ :=
  reqs.filter (fun t => now - t < 60)

/-- Python `min` over a nonempty list: fold of `min` over the tail. -/
def listMin (x : ℚ) (xs : List ℚ) : ℚ :=
  xs.foldl min x

/-- Python `min` over a list; the empty case is junk (Python would raise),
unreachable whenever the configured limit is positive. -/
def pythonMin (xs : List ℚ) : ℚ :=
  match xs with
  | [] => 0
  | x :: t => listMin x t

/-- Method `RateLimiter.is_rate_limited`: clean the window, reject with
`retry_after = int(60 - (now - oldest))` when the cleaned window already
holds `limit` requests, otherwise record the request.  Returns
((limited, retry_after), new request list); `Int.floor` is Python's `int()`
here since the argument is nonnegative on the taken branch. -/
def is_rate_limited (limit : Nat) (now : ℚ) (reqs : List ℚ) :
    (Bool × Int) × List ℚ :=
  let cleaned := cleanRequests now reqs
  if limit ≤ cleaned.length then
    ((true, Int.floor (60 - (now - pythonMin cleaned))), cleaned)
  else
    ((false, 0), cleaned ++ [now])

/-- Outcome of `rate_limit_middleware` for one request: either the 429
rejection carrying `Retry-After`, or a pass-through (the downstream handler's
status is abstracted as 200). -/
structure MWResponse where
  status : Nat
  retryAfter : Option Int
deriving DecidableEq, Repr

/-- The check `request.url.path.startswith("/health")`, phrased on the
character lists so it evaluates inside the kernel. -/
def isHealthPath (path : String) : Bool :=
  "/health".data.isPrefixOf path.data

/-- Middleware `rate_limit_middleware` with the limiter configured at 60
requests per minute: health-check paths bypass the limiter entirely; other
paths consult `is_rate_limited` and are rejected with 429 and a `Retry-After`
header when limited. -/
def rate_limit_middleware (path : String) (now : ℚ) (reqs : List ℚ) :
    MWResponse × List ℚ :=
  if isHealthPath path then
    ({ status := 200, retryAfter := none }, reqs)
  else
    match is_rate_limited 60 now reqs with
    | ((true, retryAfter), reqs') =>
        ({ status := 429, retryAfter := some retryAfter }, reqs')
    | ((false, _), reqs') =>
        ({ status := 200, retryAfter := none }, reqs')

/-- Run a sequence of requests against one path, threading the limiter
state; returns the list of responses and the final state. -/
def runRequests (path : String) (times : List ℚ) (reqs : List ℚ) :
    List MWResponse × List ℚ :=
  match times with
  | [] => ([], reqs)
  | t :: ts =>
      ((rate_limit_middleware path t reqs).1
         :: (runRequests path ts (rate_limit_middleware path t reqs).2).1,
       (runRequests path ts (rate_limit_middleware path t reqs).2).2)

/-! ### Logout (routers/auth.py) -/

/-- Handler `logout` (POST /auth/logout): deletes every refresh-token row
whose token string equals the one in the request body and reports success.
`callerUid` is the subject of the presented bearer token; the handler never
reads it — the delete is keyed on the token string alone. -/
def logout (db : DB) (callerUid : Nat) (refreshToken : String) :
    DB × Except Err String :=
  let _ := callerUid
  ({ db with refreshTokens := db.refreshTokens.filter (fun rt => rt.token != refreshToken) },
   .ok "Successfully logged out")

/-! ### Observation helpers and concrete traces -/

/-- Owner (user id) of the project a deployment belongs to. -/
def deploymentOwner (db : DB) (d : DeploymentRec) : Option Nat :=
  (db.projects.find? (fun p => p.id == d.projectId)).map (fun p => p.userId)

/-- Status of the deployment row with a given primary key. -/
def deploymentStatusIn (db : DB) (did : Nat) : Option DeploymentStatus :=
  (db.deployments.find? (fun d => d.id == did)).map (fun d => d.status)

/-- Completion time of the deployment row with a given primary key. -/
def deploymentCompletedIn (db : DB) (did : Nat) : Option (Option Nat) :=
  (db.deployments.find? (fun d => d.id == did)).map (fun d => d.completedAt)

/-- A registered non-admin user. -/
def user1 : UserRec :=
  { id := 1, email := "alice@example.com", isActive := true, isAdmin := false,
    createdAt := 0 }

/-- A project owned by `user1`. -/
def project1 : ProjectRec :=
  { id := 1, name := "demo", githubUrl := "https://github.com/u/r", userId := 1,
    createdAt := 0 }

/-- Store holding one user and one project, no deployments yet. -/
def db0 : DB :=
  { users := [user1], projects := [project1], deployments := [], refreshTokens := [] }

/-- The deployment row `trigger_deployment` inserts in the traces below. -/
def dep1 : DeploymentRec :=
  { id := 1, projectId := 1, status := .pending, logs := "Deployment queued...\n",
    startedAt := 10, completedAt := none }

/-- State after user 1 triggers a deployment on project 1 at time 10. -/
def dbTriggered : DB := (trigger_deployment 10 1 db0 1 1).1

/-- Trace A: the owner cancels at time 11, before the simulator's first
stage (the spec's "immediately cancel before first stage transition"). -/
def dbCancelled : DB := (cancel_deployment 11 dbTriggered 1 1).1

/-- Trace A continued: the detached simulator wakes up for its first stage
after the cancellation has been committed. -/
def dbOverwritten : DB := simStep1 dbCancelled 1

/-- Trace B: the simulator's first stage runs normally. -/
def dbStep1 : DB := simStep1 dbTriggered 1

/-- Trace B continued: the owner cancels at time 12, between the simulator's
first and second stage. -/
def dbStep1Cancelled : DB := (cancel_deployment 12 dbStep1 1 1).1

/-- Trace B continued: the simulator wakes up for its second stage after the
cancellation has been committed. -/
def dbRaced : DB := simStep2 dbStep1Cancelled 1

/-- A second registered non-admin user. -/
def user2 : UserRec :=
  { id := 2, email := "bob@example.com", isActive := true, isAdmin := false,
    createdAt := 0 }

/-- A project owned by `user2`. -/
def project2 : ProjectRec :=
  { id := 2, name := "other", githubUrl := "https://github.com/v/s", userId := 2,
    createdAt := 0 }

/-- A deployment under `project2`, hence owned by `user2`. -/
def dep2 : DeploymentRec :=
  { id := 7, projectId := 2, status := .pending, logs := "Deployment queued...\n",
    startedAt := 3, completedAt := none }

/-- Store with two users, each owning a project, and one deployment that
belongs to `user2`. -/
def dbTwoUsers : DB :=
  { users := [user1, user2], projects := [project1, project2],
    deployments := [dep2], refreshTokens := [] }

/-- A refresh token of `user1`. -/
def rtok1 : RefreshTokenRec := { id := 1, token := "tokA", userId := 1, expiresAt := 1000 }

/-- A refresh token of `user2`. -/
def rtok2 : RefreshTokenRec := { id := 2, token := "tokB", userId := 2, expiresAt := 1000 }

/-- Store holding both users' refresh tokens. -/
def dbTokens : DB :=
  { users := [user1, user2], projects := [], deployments := [],
    refreshTokens := [rtok1, rtok2] }

/-- Concrete crypto primitives used to exercise the credential-service
theorem: the pre-hash is the identity and the salted hash ignores its salt,
so the bcrypt agreement law holds by computation. -/
def toyCrypto : CryptoPrims :=
  { sha256hex := fun s => s, hashpw := fun x _ => x, checkpw := fun y h => y == h }

/-! ### Claim theorems -/

/-- C1: the claim says that once a deployment's status is terminal no later
operation changes it, because the simulator re-reads the current status
before persisting each next state.  The code does not re-read: in trace A
the deployment is CANCELLED (terminal) after the concurrent cancel, yet the
simulator's next step blindly overwrites the status to BUILDING.  This
theorem evaluates the code on that failing trace. -/
theorem c1_simulator_overwrites_terminal_status :
    deploymentStatusIn dbCancelled 1 = some .cancelled ∧
    DeploymentStatus.cancelled.isTerminal = true ∧
    deploymentStatusIn dbOverwritten 1 = some .building ∧
    DeploymentStatus.building ≠ DeploymentStatus.cancelled := by
  decide

/-- C3: the claim says `completed_at` is non-null iff the status is terminal
at every point of the lifecycle, including after every simulator step.  In
trace B the cancel stamps `completed_at := 12`, and the simulator's next
step then overwrites the status to DEPLOYING (non-terminal) without clearing
the stamp, so after that simulator step the invariant is violated.  This
theorem evaluates the code on that failing trace. -/
theorem c3_completed_at_iff_terminal_violated :
    deploymentStatusIn dbRaced 1 = some .deploying ∧
    DeploymentStatus.deploying.isTerminal = false ∧
    deploymentCompletedIn dbRaced 1 = some (some 12) := by
  decide

/-- C4: the claim says the log is append-only, so its first line is always
the "Deployment queued" line written at trigger time.  The simulator's first
stage executes `deployment.logs = "Starting build process...\n"` — an
assignment, not an append — so after that stage the queued line is gone.
This theorem evaluates the code on that failing trace. -/
theorem c4_log_overwritten_by_first_stage :
    get_deployment_logs dbTriggered 1 1 = .ok "Deployment queued...\n" ∧
    get_deployment_logs dbStep1 1 1 = .ok "Starting build process...\n" ∧
    "Deployment queued".data.isPrefixOf "Deployment queued...\n".data = true ∧
    "Deployment queued".data.isPrefixOf "Starting build process...\n".data = false := by
  decide

/-- Head case of `List.find?` with the predicate explicit, for controlled
rewriting. -/
theorem find?_cons_pos {α : Type} (p : α → Bool) (a : α) (l : List α)
    (h : p a = true) : (a :: l).find? p = some a :=
  List.find?_cons_of_pos l h

/-- Tail case of `List.find?` with the predicate explicit, for controlled
rewriting. -/
theorem find?_cons_neg {α : Type} (p : α → Bool) (a : α) (l : List α)
    (h : p a = false) : (a :: l).find? p = l.find? p :=
  List.find?_cons_of_neg l (by simp [h])

/-- Updating the rows whose key equals `n` commutes with looking the key up:
the first row with key `n` after the keyed map is the image of the first row
with key `n` before it, provided the update preserves the key. -/
theorem find?_key_map_update {α : Type} (key : α → Nat) (f : α → α) (n : Nat)
    (hid : ∀ d, key (f d) = key d) (l : List α) :
    (l.map (fun d => if key d == n then f d else d)).find? (fun d => key d == n)
      = (l.find? (fun d => key d == n)).map f := by
  induction l with
  | nil => rfl
  | cons a l ih =>
      by_cases h : (key a == n) = true
      · rw [List.map_cons, if_pos h,
            find?_cons_pos (fun d => key d == n) (f a) _ (by simp only [hid]; exact h),
            find?_cons_pos (fun d => key d == n) a l h]
        rfl
      · have h' : (key a == n) = false := by simpa using h
        rw [List.map_cons, if_neg h,
            find?_cons_neg (fun d => key d == n) a _ h',
            find?_cons_neg (fun d => key d == n) a l h', ih]

/-- When keys are unique, the first row satisfying a keyed conjunction is
also the first row with that key. -/
theorem find?_key_of_find?_and {α : Type} (key : α → Nat) (p : α → Bool) (n : Nat)
    (l : List α) (d : α)
    (hnodup : (l.map key).Nodup)
    (h : l.find? (fun x => key x == n && p x) = some d) :
    l.find? (fun x => key x == n) = some d := by
  induction l with
  | nil => simp at h
  | cons a l ih =>
      rw [List.map_cons, List.nodup_cons] at hnodup
      by_cases hk : (key a == n) = true
      · rw [find?_cons_pos (fun x => key x == n) a l hk]
        by_cases hp : p a = true
        · rw [find?_cons_pos (fun x => key x == n && p x) a l (by simp [hk, hp])] at h
          exact h
        · have hp' : p a = false := by simpa using hp
          rw [find?_cons_neg (fun x => key x == n && p x) a l (by simp [hp'])] at h
          exfalso
          have hd_mem := List.mem_of_find?_eq_some h
          have hd_pred := List.find?_some h
          simp only [Bool.and_eq_true, beq_iff_eq] at hd_pred
          have hdk : key d = n := hd_pred.1
          have hak : key a = n := by simpa using hk
          exact hnodup.1 (by rw [hak, ← hdk]; exact List.mem_map_of_mem key hd_mem)
      · have hk' : (key a == n) = false := by simpa using hk
        rw [find?_cons_neg (fun x => key x == n) a l hk']
        rw [find?_cons_neg (fun x => key x == n && p x) a l (by simp [hk'])] at h
        exact ih hnodup.2 h

/-- C2: for a deployment owned by the requester, cancelling while the status
is terminal fails with the conflict error (HTTP 400, the spec's Conflict
bucket) and leaves the store untouched, while cancelling a non-terminal
deployment succeeds, sets CANCELLED, stamps the completion time and appends
the cancellation line to the log. -/
theorem c2_cancel_semantics (now : Nat) (db : DB) (uid did : Nat) (d : DeploymentRec)
    (hnodup : (db.deployments.map (fun x => x.id)).Nodup)
    (hfind : findDeploymentOwned db did uid = some d) :
    (d.status.isTerminal = true →
       cancel_deployment now db uid did =
         (db, .error (400, "Cannot cancel deployment with status: " ++ d.status.value))) ∧
    (d.status.isTerminal = false →
       (cancel_deployment now db uid did).2 = .ok "Deployment cancelled successfully" ∧
       (cancel_deployment now db uid did).1.deployments.find? (fun x => x.id == did) =
         some { d with status := .cancelled, completedAt := some now,
                       logs := d.logs ++ cancelLogLine }) := by
  have hfind' : db.deployments.find?
      (fun x => x.id == did && db.projects.any (fun p => p.id == x.projectId && p.userId == uid))
      = some d := hfind
  have hpred := List.find?_some hfind'
  simp only [Bool.and_eq_true, beq_iff_eq] at hpred
  have hdid : d.id = did := hpred.1
  constructor
  · intro hterm
    simp [cancel_deployment, hfind, hterm]
  · intro hterm
    have hcancel : cancel_deployment now db uid did =
        (updateDeployment db d.id (fun x =>
          { x with status := .cancelled, completedAt := some now,
                   logs := x.logs ++ cancelLogLine }),
         .ok "Deployment cancelled successfully") := by
      simp [cancel_deployment, hfind, hterm]
    refine ⟨by rw [hcancel], ?_⟩
    have hfind'' := hfind'
    rw [← hdid] at hfind''
    rw [hcancel, ← hdid]
    exact (find?_key_map_update (fun x => x.id)
        (fun x => { x with status := .cancelled, completedAt := some now,
                           logs := x.logs ++ cancelLogLine })
        d.id (fun _ => rfl) db.deployments).trans
      (by rw [find?_key_of_find?_and (fun x => x.id)
                (fun x => db.projects.any (fun p => p.id == x.projectId && p.userId == uid))
                d.id db.deployments d hnodup hfind''])

/-- C2 witness: cancelling the freshly triggered (PENDING) deployment of the
concrete trace succeeds, sets CANCELLED with completion time 11 and appends
the cancellation line. -/
theorem c2_cancel_semantics_witness :
    (cancel_deployment 11 dbTriggered 1 1).2 = .ok "Deployment cancelled successfully" ∧
    (cancel_deployment 11 dbTriggered 1 1).1.deployments.find? (fun x => x.id == 1) =
      some { id := 1, projectId := 1, status := .cancelled,
             logs := "Deployment queued...\n" ++ cancelLogLine,
             startedAt := 10, completedAt := some 11 } :=
  (c2_cancel_semantics 11 dbTriggered 1 1 dep1 (by decide) (by decide)).2 (by decide)

/-- C5: a non-admin authenticated user gets 404 from retrieve, update,
delete, cancel and log retrieval on every project and deployment owned by a
different user, and none of these operations mutates the store — every
handler filters its query by the requester's user id. -/
theorem c5_cross_user_isolation (db : DB) (uid : Nat) (u : UserRec) (now : Nat)
    (name url : String)
    (hu : u ∈ db.users) (hadmin : u.isAdmin = false) (huid : u.id = uid)
    (hndp : (db.projects.map (fun p => p.id)).Nodup)
    (hndd : (db.deployments.map (fun x => x.id)).Nodup) :
    (∀ p ∈ db.projects, p.userId ≠ uid →
       get_project db uid p.id = .error (404, "Project not found") ∧
       update_project db uid p.id name url = (db, .error (404, "Project not found")) ∧
       delete_project db uid p.id = (db, .error (404, "Project not found"))) ∧
    (∀ d ∈ db.deployments, ∀ o, deploymentOwner db d = some o → o ≠ uid →
       get_deployment db uid d.id = .error (404, "Deployment not found") ∧
       get_deployment_logs db uid d.id = .error (404, "Deployment not found") ∧
       cancel_deployment now db uid d.id = (db, .error (404, "Deployment not found"))) := by
  constructor
  · intro p hp hpnot
    have hnone : findProjectOwned db p.id uid = none := by
      unfold findProjectOwned
      rw [List.find?_eq_none]
      intro q hq hcontra
      simp only [Bool.and_eq_true, beq_iff_eq] at hcontra
      have hqp : q = p := List.inj_on_of_nodup_map hndp hq hp hcontra.1
      rw [hqp] at hcontra
      exact hpnot hcontra.2
    exact ⟨by simp [get_project, hnone], by simp [update_project, hnone],
           by simp [delete_project, hnone]⟩
  · intro d hd o ho honot
    have hnone : findDeploymentOwned db d.id uid = none := by
      unfold findDeploymentOwned
      rw [List.find?_eq_none]
      intro x hx hcontra
      simp only [Bool.and_eq_true, beq_iff_eq, List.any_eq_true] at hcontra
      obtain ⟨hxid, q, hq_mem, hq1, hq2⟩ := hcontra
      have hxd : x = d := List.inj_on_of_nodup_map hndd hx hd hxid
      rw [hxd] at hq1
      unfold deploymentOwner at ho
      rw [Option.map_eq_some'] at ho
      obtain ⟨p0, hp0_find, hp0_uid⟩ := ho
      have hp0_mem := List.mem_of_find?_eq_some hp0_find
      have hp0_pred := List.find?_some hp0_find
      simp only [beq_iff_eq] at hp0_pred
      have hqp0 : q = p0 :=
        List.inj_on_of_nodup_map hndp hq_mem hp0_mem (by rw [hq1, hp0_pred])
      rw [hqp0] at hq2
      exact honot (by rw [← hp0_uid, ← hq2])
    exact ⟨by simp [get_deployment, hnone], by simp [get_deployment_logs, hnone],
           by simp [cancel_deployment, hnone]⟩

/-- C5 witness: in the two-user store, user 1 receives 404 from all five
cross-user operations on user 2's project and deployment, and the store is
returned unchanged by the mutating ones. -/
theorem c5_cross_user_isolation_witness :
    get_project dbTwoUsers 1 2 = .error (404, "Project not found") ∧
    update_project dbTwoUsers 1 2 "n" "https://github.com/x/y"
      = (dbTwoUsers, .error (404, "Project not found")) ∧
    delete_project dbTwoUsers 1 2 = (dbTwoUsers, .error (404, "Project not found")) ∧
    get_deployment dbTwoUsers 1 7 = .error (404, "Deployment not found") ∧
    get_deployment_logs dbTwoUsers 1 7 = .error (404, "Deployment not found") ∧
    cancel_deployment 5 dbTwoUsers 1 7 = (dbTwoUsers, .error (404, "Deployment not found")) := by
  have h := c5_cross_user_isolation dbTwoUsers 1 user1 5 "n" "https://github.com/x/y"
    (by decide) (by decide) (by decide) (by decide) (by decide)
  have h1 := h.1 project2 (by decide) (by decide)
  have h2 := h.2 dep2 (by decide) 2 (by decide) (by decide)
  exact ⟨h1.1, h1.2.1, h1.2.2, h2.1, h2.2.1, h2.2.2⟩

/-- C6: for a valid date range containing zero deployments, both the
user-stats and the project-stats analytics report a success rate of exactly
0 and no error; the guarded conditional in `successRate` only divides when
the total is positive. -/
theorem c6_zero_deployments_success_rate (db : DB) (uid pid s e : Nat) (p : ProjectRec)
    (hrange : validate_date_range s e = true)
    (hup : userDeploymentsInRange db uid s e = [])
    (hpp : projectDeploymentsInRange db pid s e = [])
    (hp : findProjectOwned db pid uid = some p) :
    get_user_analytics_success_rate db uid s e = .ok 0 ∧
    get_project_analytics_success_rate db uid pid s e = .ok 0 := by
  constructor
  · simp [get_user_analytics_success_rate, hrange, hup, successRate]
  · simp [get_project_analytics_success_rate, hp, hrange, hpp, successRate]

/-- C6 witness: in the store with one project and no deployments, both
analytics endpoints report success rate 0 over the range [0, 100]. -/
theorem c6_zero_deployments_success_rate_witness :
    get_user_analytics_success_rate db0 1 0 100 = .ok 0 ∧
    get_project_analytics_success_rate db0 1 1 0 100 = .ok 0 :=
  c6_zero_deployments_success_rate db0 1 1 0 100 project1
    (by decide) (by decide) (by decide) (by decide)

/-- C7 counterexample: the claim says that with zero new users in the prior
month and zero in the current month the reported growth is 0; on the store
whose only user was created at time 0, both monthly counts over
[100, 200) and [200, ∞) are zero, yet the code reports 100. -/
theorem c7_growth_counterexample :
    newUsersLastMonth db0 100 200 = 0 ∧
    newUsersThisMonth db0 200 = 0 ∧
    adminUserGrowth db0 100 200 = 100 ∧
    ¬ adminUserGrowth db0 100 200 = 0 := by
  decide

/-- C7 amended: whenever the prior month's new-user count is zero, the
admin overview reports a month-over-month growth of exactly 100, regardless
of the current month's count — the `else 100` branch never inspects it. -/
theorem c7_growth_prior_zero (db : DB) (lastStart curStart : Nat)
    (h : newUsersLastMonth db lastStart curStart = 0) :
    adminUserGrowth db lastStart curStart = 100 := by
  unfold adminUserGrowth user_growth
  rw [h]
  simp

/-- C7 witness: on the concrete store the prior-month count over [300, 400)
is zero and the reported growth is 100. -/
theorem c7_growth_prior_zero_witness :
    adminUserGrowth db0 300 400 = 100 :=
  c7_growth_prior_zero db0 300 400 (by decide)

/-- C8: under the bcrypt agreement law (`checkpw` accepts exactly the input
that was hashed), hashing accepts any password of length at most 128 and the
stored digest verifies the original password positively and any other
string — of any length, the pre-hashes being distinct — negatively. -/
theorem c8_password_roundtrip (c : CryptoPrims) (salt p : String)
    (hbc : ∀ x y s, c.checkpw y (c.hashpw x s) = (y == x))
    (hlen : p.length ≤ 128) :
    get_password_hash c salt p = .ok (c.hashpw (c.preHash p) salt) ∧
    verify_password c p (c.hashpw (c.preHash p) salt) = true ∧
    (∀ s', s' ≠ p → c.sha256hex s' ≠ c.sha256hex p →
       verify_password c s' (c.hashpw (c.preHash p) salt) = false) := by
  refine ⟨?_, ?_, ?_⟩
  · unfold get_password_hash
    rw [if_neg (by omega)]
  · unfold verify_password
    rw [hbc]
    simp
  · intro s' hne hdig
    unfold verify_password CryptoPrims.preHash
    rw [hbc]
    exact beq_eq_false_iff_ne.mpr hdig

/-- C8 witness: with the concrete primitives, hashing "Abc123" succeeds, the
digest verifies "Abc123" and rejects the empty string. -/
theorem c8_password_roundtrip_witness :
    get_password_hash toyCrypto "s1" "Abc123" = .ok "Abc123" ∧
    verify_password toyCrypto "Abc123" "Abc123" = true ∧
    verify_password toyCrypto "" "Abc123" = false := by
  have h := c8_password_roundtrip toyCrypto "s1" "Abc123" (fun x y s => rfl) (by decide)
  exact ⟨h.1, h.2.1, h.2.2 "" (by decide) (by decide)⟩

/-- C10: logout always reports success, removes every stored refresh-token
row whose token string equals the one supplied in the body — the query never
compares the row's user id with the caller's — and keeps every other row. -/
theorem c10_logout_deletes_by_token (db : DB) (callerUid : Nat) (tok : String) :
    (logout db callerUid tok).2 = .ok "Successfully logged out" ∧
    (∀ rt ∈ db.refreshTokens, rt.token = tok →
       rt ∉ (logout db callerUid tok).1.refreshTokens) ∧
    (∀ rt ∈ db.refreshTokens, rt.token ≠ tok →
       rt ∈ (logout db callerUid tok).1.refreshTokens) := by
  refine ⟨rfl, ?_, ?_⟩
  · intro rt hrt htok
    simp [logout, List.mem_filter, htok]
  · intro rt hrt htok
    exact List.mem_filter.mpr ⟨hrt, by simpa using htok⟩

/-- C10 witness: with a bearer token of user 1, logging out with user 2's
refresh token deletes user 2's row, keeps user 1's, and reports success. -/
theorem c10_logout_deletes_by_token_witness :
    (logout dbTokens 1 "tokB").2 = .ok "Successfully logged out" ∧
    rtok2 ∉ (logout dbTokens 1 "tokB").1.refreshTokens ∧
    rtok1 ∈ (logout dbTokens 1 "tokB").1.refreshTokens ∧
    rtok2.userId ≠ 1 := by
  have h := c10_logout_deletes_by_token dbTokens 1 "tokB"
  exact ⟨h.1, h.2.1 rtok2 (by decide) (by decide),
         h.2.2 rtok1 (by decide) (by decide), by decide⟩

/-- Cleaning is a no-op when every recorded timestamp is still inside the
60-second window. -/
theorem cleanRequests_eq_self (now : ℚ) (reqs : List ℚ)
    (h : ∀ t ∈ reqs, now - t < 60) : cleanRequests now reqs = reqs := by
  unfold cleanRequests
  exact List.filter_eq_self.mpr (fun t ht => by simpa using h t ht)

/-- A left fold of `min` starting from a lower bound of the list returns
that bound. -/
theorem foldl_min_of_le (x : ℚ) (xs : List ℚ) (h : ∀ y ∈ xs, x ≤ y) :
    xs.foldl min x = x := by
  induction xs generalizing x with
  | nil => rfl
  | cons a l ih =>
      rw [List.foldl_cons, min_eq_left (h a (List.mem_cons_self a l))]
      exact ih x (fun y hy => h y (List.mem_cons_of_mem a hy))

/-- `listMin` of a head that bounds the tail is the head. -/
theorem listMin_of_le (x : ℚ) (xs : List ℚ) (h : ∀ y ∈ xs, x ≤ y) :
    listMin x xs = x :=
  foldl_min_of_le x xs h

/-- While the window holds fewer than 60 requests every request on a
non-health path passes through: processing `times` on top of the already
recorded `acc`, with everything inside one 60-second window starting at
`t0`, answers 200 throughout and records each timestamp. -/
theorem runRequests_all_allowed (path : String) (hpath : isHealthPath path = false)
    (t0 : ℚ) :
    ∀ (times acc : List ℚ),
    acc.length + times.length ≤ 60 →
    (∀ x ∈ acc, t0 ≤ x ∧ x - t0 < 60) →
    (∀ x ∈ times, t0 ≤ x ∧ x - t0 < 60) →
    runRequests path times acc
      = (List.replicate times.length { status := 200, retryAfter := none }, acc ++ times) := by
  intro times
  induction times with
  | nil =>
      intro acc _ _ _
      simp [runRequests]
  | cons t ts ih =>
      intro acc hlen hacc htimes
      simp only [List.length_cons] at hlen
      have ht := htimes t (List.mem_cons_self t ts)
      have hclean : cleanRequests t acc = acc :=
        cleanRequests_eq_self t acc (fun y hy => by
          have hy' := hacc y hy
          linarith [hy'.1, ht.2])
      have hrl : is_rate_limited 60 t acc = ((false, 0), acc ++ [t]) := by
        simp only [is_rate_limited, hclean]
        rw [if_neg (by omega)]
      have hstep : rate_limit_middleware path t acc
          = ({ status := 200, retryAfter := none }, acc ++ [t]) := by
        simp [rate_limit_middleware, hpath, hrl]
      have hih := ih (acc ++ [t])
        (by simp only [List.length_append, List.length_singleton]; omega)
        (fun y hy => by
          rcases List.mem_append.mp hy with h' | h'
          · exact hacc y h'
          · rw [List.mem_singleton] at h'
            rw [h']
            exact ht)
        (fun y hy => htimes y (List.mem_cons_of_mem t hy))
      unfold runRequests
      simp only [hstep, hih]
      simp [List.replicate_succ]

/-- C9 amended: 61 requests on a non-health path inside one 60-second
window: each of the first 60 passes, the 61st is rejected with HTTP 429 and
`Retry-After = ⌊60 - (t61 - t0)⌋`, which is always at least 0 — and
strictly positive only when the 61st request comes at most 59 seconds after
the first, since Python's `int()` truncation can return 0 near the window's
edge. -/
theorem c9_sliding_window_61st (path : String) (t0 t61 : ℚ) (rest : List ℚ)
    (hpath : isHealthPath path = false)
    (hlen : rest.length = 59)
    (hwin : ∀ x ∈ t0 :: rest, t0 ≤ x ∧ x - t0 < 60)
    (h61lo : t0 ≤ t61) (h61hi : t61 - t0 < 60) :
    (runRequests path (t0 :: rest) []).1
      = List.replicate 60 { status := 200, retryAfter := none } ∧
    (rate_limit_middleware path t61 (runRequests path (t0 :: rest) []).2).1
      = { status := 429, retryAfter := some (Int.floor (60 - (t61 - t0))) } ∧
    0 ≤ Int.floor (60 - (t61 - t0)) ∧
    (t61 - t0 ≤ 59 → 0 < Int.floor (60 - (t61 - t0))) := by
  have hrun := runRequests_all_allowed path hpath t0 (t0 :: rest) []
    (by simp [hlen]) (by simp) hwin
  have hstate : (runRequests path (t0 :: rest) []).2 = t0 :: rest := by
    rw [hrun]
    rfl
  have hcleanfull : cleanRequests t61 (t0 :: rest) = t0 :: rest :=
    cleanRequests_eq_self _ _ (fun y hy => by
      have hy' := hwin y hy
      linarith [hy'.1])
  have hminfull : pythonMin (t0 :: rest) = t0 :=
    listMin_of_le t0 rest (fun y hy => (hwin y (List.mem_cons_of_mem t0 hy)).1)
  have hlim : is_rate_limited 60 t61 (t0 :: rest)
      = ((true, Int.floor (60 - (t61 - t0))), t0 :: rest) := by
    simp only [is_rate_limited, hcleanfull, hminfull]
    rw [if_pos (by simp [hlen])]
  have hmw : (rate_limit_middleware path t61 (t0 :: rest)).1
      = { status := 429, retryAfter := some (Int.floor (60 - (t61 - t0))) } := by
    simp [rate_limit_middleware, hpath, hlim]
  refine ⟨by rw [hrun]; simp [hlen], by rw [hstate]; exact hmw, ?_, ?_⟩
  · rw [show (0:ℤ) = ((0:ℤ)) from rfl, Int.le_floor]
    push_cast
    linarith
  · intro hle
    have h1 : (1:ℤ) ≤ Int.floor (60 - (t61 - t0)) := by
      rw [Int.le_floor]
      push_cast
      linarith
    omega

/-- C9 witness: sixty requests at time 0 and a 61st at time 30 on a
non-health path: the first sixty pass, the 61st is rejected with 429 and a
strictly positive Retry-After. -/
theorem c9_sliding_window_61st_witness :
    (runRequests "/api" ((0:ℚ) :: List.replicate 59 (0:ℚ)) []).1
      = List.replicate 60 { status := 200, retryAfter := none } ∧
    (rate_limit_middleware "/api" 30 (runRequests "/api" ((0:ℚ) :: List.replicate 59 (0:ℚ)) []).2).1
      = { status := 429, retryAfter := some (Int.floor ((60:ℚ) - (30 - 0))) } ∧
    0 ≤ Int.floor ((60:ℚ) - (30 - 0)) ∧
    0 < Int.floor ((60:ℚ) - (30 - 0)) := by
  have h := c9_sliding_window_61st "/api" 0 30 (List.replicate 59 0)
    (by decide) (by simp)
    (by
      intro x hx
      have hx0 : x = 0 := by
        rcases List.mem_cons.mp hx with h' | h'
        · exact h'
        · exact List.eq_of_mem_replicate h'
      rw [hx0]
      norm_num)
    (by norm_num) (by norm_num)
  exact ⟨h.1, h.2.1, h.2.2.1, h.2.2.2 (by norm_num)⟩

/-- C9 counterexample: the claim asserts a strictly positive Retry-After for
every 61-requests-in-60-seconds pattern; with sixty requests at time 0 and
the 61st at time 59.5 — all inside one 60-second window — the 61st is
rejected with 429 but `int(60 - 59.5)` truncates to a Retry-After of 0. -/
theorem c9_retry_after_zero_counterexample :
    (runRequests "/api" (List.replicate 60 (0:ℚ)) []).1
      = List.replicate 60 { status := 200, retryAfter := none } ∧
    ((119:ℚ)/2 - 0 < 60) ∧
    (rate_limit_middleware "/api" (119/2) (runRequests "/api" (List.replicate 60 (0:ℚ)) []).2).1
      = { status := 429, retryAfter := some 0 } ∧
    ¬ ((0:Int) > 0) := by
  have hpath' : isHealthPath "/api" = false := by decide
  have hrun := runRequests_all_allowed "/api" hpath' 0 (List.replicate 60 0) []
    (by simp) (by simp)
    (by
      intro x hx
      rw [List.eq_of_mem_replicate hx]
      norm_num)
  have hstate : (runRequests "/api" (List.replicate 60 (0:ℚ)) []).2
      = List.replicate 60 0 := by
    rw [hrun]
    rfl
  have hclean : cleanRequests ((119:ℚ)/2) (List.replicate 60 0) = List.replicate 60 0 :=
    cleanRequests_eq_self _ _ (fun y hy => by
      rw [List.eq_of_mem_replicate hy]
      norm_num)
  have hmin : pythonMin (List.replicate 60 (0:ℚ)) = 0 :=
    listMin_of_le 0 (List.replicate 59 0) (fun y hy => by
      rw [List.eq_of_mem_replicate hy])
  have hfloor : Int.floor ((60:ℚ) - (119/2 - 0)) = 0 := by
    rw [show (60:ℚ) - (119/2 - 0) = 1/2 by norm_num, Int.floor_eq_zero_iff,
        Set.mem_Ico]
    norm_num
  have hlim : is_rate_limited 60 ((119:ℚ)/2) (List.replicate 60 0)
      = ((true, 0), List.replicate 60 0) := by
    simp only [is_rate_limited, hclean, hmin]
    rw [if_pos (by simp), hfloor]
  have hmw : (rate_limit_middleware "/api" ((119:ℚ)/2) (List.replicate 60 0)).1
      = { status := 429, retryAfter := some 0 } := by
    simp only [rate_limit_middleware, hpath', Bool.false_eq_true, if_false, hlim]
  refine ⟨by rw [hrun]; simp, by norm_num, ?_, by norm_num⟩
  rw [hstate]
  exact hmw

end Backend
